import Mathlib

/-!
Verification of the menu/command layer of an Obsidian note-publishing plugin
(`src/commands/file_menu.ts`).

The file contains a shallow embedding of the module.  External collaborators
(the host application metadata cache, the data-validation helpers
`getRepoSharedKey` / `isShared` / `multipleSharedKey` / `getRepoFrontmatter` /
`defaultRepo`, the i18n translation function, the platform flag, and the
share operations `shareOneNote` / `shareAllMarkedNotes`) are modelled as an
environment of oracle functions, since only their call signatures are visible
from the module under study.

Menus are modelled as lists of entries.  `menu.addItem(cb)` is modelled as
appending the item, as configured by `cb`, at the position where `addItem`
pushes it - before any entry `cb` itself appends to the same menu (the host
pushes the item and then runs the callback, which only mutates the already
pushed item).  `item.setSubmenu()` on desktop attaches a fresh entry list
to the item; on mobile the submenu builders append to the original menu, as
in the source.  The `onClick` closure of a menu item is modelled as an
`Action` value recording exactly the data the source closure captures;
clicking is modelled by interpreters (`dispatchOf`, `runClickE`).

There are two embeddings:
* a pure one (`addMenuFile`, `subMenuCommandsFile`, `addMenuFolder`,
  `addSubMenuCommandsFolder`, `shareFolderRepo`) used for the functional
  claims, and
* an instrumented one (suffix `E`) over collaborators that may throw,
  which additionally logs every collaborator call; it is used for the
  temporal (no dispatch during construction) and error-propagation claims.
-/

namespace FileMenu

/-- A repository configuration record (`Repository` of `settings/interface`),
restricted to the fields this module reads.  `shareAllEnable` is the
truthiness of `repo.shareAll?.enable`. -/
structure Repository where
  smartKey : String
  shareKey : String
  shareAllEnable : Bool
  createShortcuts : Bool
deriving DecidableEq

/-- A repository frontmatter record (`RepoFrontmatter`), restricted to the
`repo` field, the only one this module reads (line 230). -/
structure RepoFrontmatter where
  repo : String
deriving DecidableEq

/-- Result of `getRepoFrontmatter`: `RepoFrontmatter | RepoFrontmatter[]`. -/
inductive RepoFM where
  | single (r : RepoFrontmatter)
  | multiple (rs : List RepoFrontmatter)
deriving DecidableEq

/-- A frontmatter map, abstracted to the set of keys whose values are truthy:
the module only ever tests truthiness of `frontmatter[key]`. -/
structure Frontmatter where
  truthy : List String
deriving DecidableEq

/-- Truthiness of `frontmatter?.[k]` (JS optional chaining: `undefined` is
falsy when the frontmatter is absent). -/
def fmHas (fm : Option Frontmatter) (k : String) : Bool :=
  match fm with
  | none => false
  | some f => f.truthy.contains k

/-- Plugin settings, restricted to the fields this module reads:
`settings.github.otherRepo`, `settings.plugin.fileMenu`,
`settings.plugin.shareKey` and the truthiness of
`settings.plugin.shareAll?.enable`. -/
structure Settings where
  otherRepo : List Repository
  fileMenu : Bool
  shareKey : String
  shareAllEnable : Bool
deriving DecidableEq

/-- A vault file (`TFile`).  `isTFile` records the result of the
`file instanceof TFile` test made at line 98. -/
structure AFile where
  basename : String
  isTFile : Bool
deriving DecidableEq

/-- A vault folder (`TFolder`). -/
structure TFolder where
  name : String
deriving DecidableEq

/-- JavaScript `String.prototype.replace` with a string pattern: replaces the
first occurrence only.  Used for `.replace(".md", "")`. -/
def listReplaceFirst (pat rep : List Char) : List Char → List Char
  | [] => []
  | c :: cs =>
    if pat.isPrefixOf (c :: cs) then rep ++ (c :: cs).drop pat.length
    else c :: listReplaceFirst pat rep cs

/-- JavaScript first-occurrence string replacement. -/
def jsReplaceFirst (s pat rep : String) : String :=
  if pat.isEmpty then ⟨rep.data ++ s.data⟩
  else ⟨listReplaceFirst pat.data rep.data s.data⟩

/-- JavaScript `String.prototype.toUpperCase` (ASCII fragment). -/
def jsToUpper (s : String) : String := ⟨s.data.map Char.toUpper⟩

/-- The oracle environment: external collaborators of the module, plus the
platform flag and the i18n translation table.  `getFileCache` returns
`none` when the metadata cache has no entry for the file (the `null` case
of `metadataCache.getFileCache`), and `some fm` with `fm` the (possibly
absent) frontmatter of the cache entry otherwise. -/
structure Env where
  isDesktop : Bool
  t : String → String
  getFileCache : AFile → Option (Option Frontmatter)
  getRepoSharedKey : Settings → Option Frontmatter → Option Repository
  multipleSharedKey : Option Frontmatter → Settings → List String
  isShared : Option Frontmatter → Settings → AFile → Option Repository → Bool
  getRepoFrontmatter : Settings → Option Repository → Option Frontmatter → RepoFM
  defaultRepo : Settings → Repository
  getTitleFieldForCommand : AFile → Option Frontmatter → String
  getSharedFileOfFolder : TFolder → Option Repository → List AFile

/-- A menu item title: either the translation call
`i18next.t("commands.shareViewFiles.multiple.on", \x7bsmartKey, doc\x7d)`,
the translation `i18next.t("commands.shareViewFiles.multiple.other")`, or
the literal string `"Github Publisher"`. -/
inductive Title where
  | shareMultipleOn (smartKey : String) (doc : String)
  | shareOther
  | githubPublisher
deriving DecidableEq

/-- What a click closure does, recording exactly the data the source closure
captures.  Collaborator calls made at click time (`defaultRepo`,
`getRepoSharedKey`) are kept symbolic so that they are evaluated by the
click interpreters, as in the source. -/
inductive Action where
  | shareOneNote (branch : String) (repo : Option Repository) (fileName : String)
  | shareOneNoteDefault (branch : String) (fileName : String)
  | shareFolderDefault (folder : TFolder) (branch : String)
  | shareFolderWith (folder : TFolder) (branch : String) (repo : Repository)
  | chooseRepoFile (shareKey : Option String) (branch : String) (basename : String)
  | chooseRepoFolder (folder : TFolder) (branch : String)
deriving DecidableEq

/-- A menu entry: an item (with the attributes the module sets) or a
separator.  `submenu` is the nested menu attached by `item.setSubmenu()`
on desktop. -/
inductive MenuEntry where
  | item (title : Option Title) (icon : Option String) (sectionName : Option String)
      (isLabel : Bool) (onClick : Option Action) (submenu : Option (List MenuEntry))
  | separator

/-- The argument record of a `shareAllMarkedNotes` dispatch made by
`shareFolderRepo`: branch name, the `MonoRepoProperties` frontmatter
(`getRepoFrontmatter(settings, repo, undefined)`; the `as RepoFrontmatter`
cast does not change the runtime value), the repository, and
`publisher.getSharedFileOfFolder(folder, repo)`. -/
structure ShareAllDispatch where
  branch : String
  frontmatter : RepoFM
  repo : Option Repository
  files : List AFile
deriving DecidableEq

/-- `shareFolderRepo` (lines 18-33): reloads the client and dispatches
`shareAllMarkedNotes`; modelled by the dispatch record it sends. -/
def shareFolderRepo (env : Env) (s : Settings) (folder : TFolder)
    (branchName : String) (repo : Option Repository) : ShareAllDispatch :=
  { branch := branchName
    frontmatter := env.getRepoFrontmatter s repo none
    repo := repo
    files := env.getSharedFileOfFolder folder repo }

/-- A share operation as dispatched by a click: `shareOneNote` or
`shareAllMarkedNotes` (via `shareFolderRepo`). -/
inductive Dispatch where
  | one (branch : String) (repo : Option Repository) (fileName : String)
  | all (d : ShareAllDispatch)
deriving DecidableEq

/-- Interpretation of a click closure as the list of share operations it
dispatches.  Opening the `ChooseRepoToRun` modal dispatches nothing by
itself. -/
def dispatchOf (env : Env) (s : Settings) : Action → List Dispatch
  | Action.shareOneNote b r fn => [Dispatch.one b r fn]
  | Action.shareOneNoteDefault b fn => [Dispatch.one b (some (env.defaultRepo s)) fn]
  | Action.shareFolderDefault folder b =>
    [Dispatch.all (shareFolderRepo env s folder b (env.getRepoSharedKey s none))]
  | Action.shareFolderWith folder b r =>
    [Dispatch.all (shareFolderRepo env s folder b (some r))]
  | Action.chooseRepoFile _ _ _ => []
  | Action.chooseRepoFolder _ _ => []

/-- The `repoFrontmatter instanceof Array && repoFrontmatter.length > 1`
test of line 111. -/
def isMultiArray : RepoFM → Bool
  | RepoFM.single _ => false
  | RepoFM.multiple rs => decide (rs.length > 1)

/-- `addSubMenuCommandsFolder` (lines 45-88).  On desktop the submenu is a
fresh menu attached to the item; otherwise entries go to the original
menu. -/
def addSubMenuCommandsFolder (env : Env) (s : Settings) (folder : TFolder)
    (branchName : String) (originalMenu : List MenuEntry) : List MenuEntry :=
  let subMenu := if env.isDesktop then ([] : List MenuEntry) else originalMenu
  let subMenu := subMenu ++
    [MenuEntry.item (some (Title.shareMultipleOn (jsToUpper (env.t "common.default")) folder.name))
      (some "folder-up") none false (some (Action.shareFolderDefault folder branchName)) none]
  let activatedRepoCommands := s.otherRepo.filter (fun repo => repo.createShortcuts)
  let subMenu :=
    if decide (activatedRepoCommands.length > 0) then
      subMenu ++ activatedRepoCommands.map (fun otherRepo =>
        MenuEntry.item (some (Title.shareMultipleOn (jsToUpper otherRepo.smartKey) folder.name))
          (some "folder-up") none false
          (some (Action.shareFolderWith folder branchName otherRepo)) none)
    else subMenu
  subMenu ++
    [MenuEntry.item (some Title.shareOther) (some "folder-symlink") none false
      (some (Action.chooseRepoFolder folder branchName)) none]

/-- `subMenuCommandsFile` (lines 170-264).  `repo` is the repository found
for the file; on desktop the submenu is fresh, otherwise it is the
original menu. -/
def subMenuCommandsFile (env : Env) (s : Settings) (file : AFile)
    (branchName : String) (repo : Option Repository)
    (originalMenu : List MenuEntry) : List MenuEntry :=
  let frontmatter := (env.getFileCache file).bind id
  let fileName := jsReplaceFirst (env.getTitleFieldForCommand file frontmatter) ".md" ""
  let subMenu := if env.isDesktop then ([] : List MenuEntry) else originalMenu
  let repoFrontmatter :=
    match env.getRepoFrontmatter s repo frontmatter with
    | RepoFM.single r => [r]
    | RepoFM.multiple rs => rs
  let subMenu :=
    if ((match repo with
          | some r => r.shareKey == s.shareKey
          | none => false) || fmHas frontmatter s.shareKey)
        && (!fmHas frontmatter "repo" || !fmHas frontmatter "multipleRepo") then
      subMenu ++
        [MenuEntry.item
          (some (Title.shareMultipleOn (jsToUpper (env.t "common.default")) fileName))
          (some "file-up") none false
          (some (Action.shareOneNoteDefault branchName fileName)) none]
    else subMenu
  let activatedRepoCommands := s.otherRepo.filter (fun r => r.createShortcuts)
  let subMenu :=
    if decide (activatedRepoCommands.length > 0) then
      subMenu ++
        (activatedRepoCommands.filter (fun otherRepo =>
          (match repo with
            | some r => otherRepo.shareKey == r.shareKey
            | none => false) || fmHas frontmatter otherRepo.shareKey)).map
          (fun otherRepo =>
            MenuEntry.item
              (some (Title.shareMultipleOn (jsToUpper otherRepo.smartKey) fileName))
              (some "file-up") none false
              (some (Action.shareOneNote branchName (some otherRepo) fileName)) none)
    else subMenu
  let subMenu :=
    if decide (repoFrontmatter.length > 1) then
      subMenu ++ repoFrontmatter.map (fun repoFront =>
        MenuEntry.item
          (some (Title.shareMultipleOn (jsToUpper repoFront.repo) fileName))
          (some "file-up") none false
          (some (Action.shareOneNote branchName repo fileName)) none)
    else subMenu
  subMenu ++
    [MenuEntry.item (some Title.shareOther) (some "file-input") none false
      (some (Action.chooseRepoFile (repo.map (fun r => r.shareKey)) branchName file.basename))
      none]

/-- The single-item repository resolution of `addMenuFile` (lines 133-139):
reassigns `getSharedKey` from the frontmatter and the share-all
configuration. -/
def resolveSingleRepo (env : Env) (s : Settings) (frontmatter : Option Frontmatter)
    (getSharedKey : Option Repository) : Option Repository :=
  if frontmatter.isNone || !fmHas frontmatter s.shareKey then
    match s.otherRepo.find? (fun repo => repo.shareAllEnable) with
    | some otherRepo => some otherRepo
    | none => if s.shareAllEnable then some (env.defaultRepo s) else getSharedKey
  else if fmHas frontmatter s.shareKey then some (env.defaultRepo s)
  else getSharedKey

/-- `addMenuFile` (lines 97-157).  Returns `none` when the non-null
assertion `getFileCache(file)!` of line 98 fails (the cache has no entry
for a `TFile`), modelling the thrown `TypeError`. -/
def addMenuFile (env : Env) (s : Settings) (file : AFile) (branchName : String)
    (menu : List MenuEntry) : Option (List MenuEntry) :=
  let cached := if file.isTFile then env.getFileCache file else some none
  match cached with
  | none => none
  | some frontmatter =>
    let getSharedKey := env.getRepoSharedKey s frontmatter
    let allKeysFromFile := env.multipleSharedKey frontmatter s
    if env.isShared frontmatter s file getSharedKey && s.fileMenu then
      let repoFrontmatter := env.getRepoFrontmatter s getSharedKey frontmatter
      some
        (if decide (allKeysFromFile.length > 1) || isMultiArray repoFrontmatter then
          if env.isDesktop then
            menu ++
              [MenuEntry.item (some Title.githubPublisher) (some "upload-cloud") none false none
                (some (subMenuCommandsFile env s file branchName getSharedKey menu))]
          else
            subMenuCommandsFile env s file branchName getSharedKey
              (menu ++ [MenuEntry.item none none none true none none, MenuEntry.separator])
        else
          let fileName :=
            jsReplaceFirst
              (env.getTitleFieldForCommand file ((env.getFileCache file).bind id)) ".md" ""
          let getSharedKey := resolveSingleRepo env s frontmatter getSharedKey
          menu ++
            [MenuEntry.item
              (some (Title.shareMultipleOn
                (match getSharedKey with
                  | some r =>
                    if (jsToUpper r.smartKey) == "" then jsToUpper (env.t "common.default")
                    else (jsToUpper r.smartKey)
                  | none => jsToUpper (env.t "common.default"))
                fileName))
              (some "file-up") none false
              (some (Action.shareOneNote branchName getSharedKey fileName)) none])
    else some menu

/-- `addMenuFolder` (lines 273-309). -/
def addMenuFolder (env : Env) (s : Settings) (folder : TFolder)
    (branchName : String) (menu : List MenuEntry) : List MenuEntry :=
  let areTheyMultipleRepo := decide (s.otherRepo.length > 0)
  if areTheyMultipleRepo then
    if env.isDesktop then
      menu ++
        [MenuEntry.item (some Title.githubPublisher) (some "upload-cloud") none false none
          (some (addSubMenuCommandsFolder env s folder branchName menu))]
    else
      addSubMenuCommandsFolder env s folder branchName
        (menu ++ [MenuEntry.item none none none true none none, MenuEntry.separator])
  else
    menu ++
      [MenuEntry.item
        (some (Title.shareMultipleOn (jsToUpper (env.t "common.default")) folder.name))
        (some "folder-up") (some "action") false
        (some (Action.shareFolderDefault folder branchName)) none]

/-- The frontmatter value that line 98 binds for a given cache entry:
the frontmatter of the cache entry for a `TFile`, `undefined` otherwise. -/
def fmUsed (file : AFile) (c : Option Frontmatter) : Option Frontmatter :=
  if file.isTFile then c else none

/-- The `fileName` computed at lines 131 and 172:
`getTitleFieldForCommand(file, getFileCache(file)?.frontmatter).replace(".md", "")`. -/
def fileTitle (env : Env) (file : AFile) : String :=
  jsReplaceFirst (env.getTitleFieldForCommand file ((env.getFileCache file).bind id)) ".md" ""

/-- A collaborator call, as logged by the instrumented embedding. -/
inductive CallE where
  | getFileCache (f : AFile)
  | getRepoSharedKey (fm : Option Frontmatter)
  | multipleSharedKey (fm : Option Frontmatter)
  | isShared (fm : Option Frontmatter) (f : AFile) (r : Option Repository)
  | getRepoFrontmatter (r : Option Repository) (fm : Option Frontmatter)
  | defaultRepo
  | getTitleFieldForCommand (f : AFile) (fm : Option Frontmatter)
  | reloadOctokit
  | getSharedFileOfFolder (folder : TFolder) (r : Option Repository)
  | openChooseRepoToRun
  | shareOneNote (branch : String) (r : Option Repository) (fileName : String)
  | shareAllMarkedNotes (d : ShareAllDispatch)
deriving DecidableEq

/-- The environment with collaborators that may throw an error of type `ε`.
`typeError` is the `TypeError` value of the host runtime, raised by the failed
non-null assertion at line 98. -/
structure EnvE (ε : Type) where
  isDesktop : Bool
  t : String → String
  typeError : ε
  getFileCache : AFile → Except ε (Option (Option Frontmatter))
  getRepoSharedKey : Settings → Option Frontmatter → Except ε (Option Repository)
  multipleSharedKey : Option Frontmatter → Settings → Except ε (List String)
  isShared : Option Frontmatter → Settings → AFile → Option Repository → Except ε Bool
  getRepoFrontmatter : Settings → Option Repository → Option Frontmatter → Except ε RepoFM
  defaultRepo : Settings → Except ε Repository
  getTitleFieldForCommand : AFile → Option Frontmatter → Except ε String
  reloadOctokit : Except ε Unit
  getSharedFileOfFolder : TFolder → Option Repository → Except ε (List AFile)
  shareOneNote : String → Option Repository → String → Except ε Unit
  shareAllMarkedNotes : ShareAllDispatch → Except ε Unit

/-- The instrumented computation monad: threads the log of collaborator
calls; an uncaught error aborts the computation but the log survives. -/
def ME (ε α : Type) := List CallE → Except ε α × List CallE

/-- Monadic return for `ME`. -/
def ME.pure (a : α) : ME ε α := fun l => (Except.ok a, l)

/-- Monadic bind for `ME`: an error short-circuits, keeping the log. -/
def ME.bind (x : ME ε α) (f : α → ME ε β) : ME ε β := fun l =>
  match x l with
  | (Except.ok a, l2) => f a l2
  | (Except.error e, l2) => (Except.error e, l2)

/-- Perform a collaborator call: log it and return its result, raising its
error if it throws. -/
def callE (c : CallE) (r : Except ε α) : ME ε α := fun l => (r, l ++ [c])

/-- Raise an error (used for the line 98 `TypeError`). -/
def throwE (e : ε) : ME ε α := fun l => (Except.error e, l)

/-- Instrumented `shareFolderRepo` (lines 18-33): reload the client, build
the `MonoRepoProperties`, and dispatch `shareAllMarkedNotes`. -/
def shareFolderRepoE (env : EnvE ε) (s : Settings) (folder : TFolder)
    (branchName : String) (repo : Option Repository) : ME ε ShareAllDispatch :=
  ME.bind (callE CallE.reloadOctokit env.reloadOctokit) (fun _ =>
  ME.bind (callE (CallE.getRepoFrontmatter repo none) (env.getRepoFrontmatter s repo none))
    (fun fmr =>
  ME.bind (callE (CallE.getSharedFileOfFolder folder repo)
      (env.getSharedFileOfFolder folder repo)) (fun files =>
  ME.bind (callE (CallE.shareAllMarkedNotes ⟨branchName, fmr, repo, files⟩)
      (env.shareAllMarkedNotes ⟨branchName, fmr, repo, files⟩)) (fun _ =>
  ME.pure ⟨branchName, fmr, repo, files⟩))))

/-- Instrumented `addSubMenuCommandsFolder` (lines 45-88): no collaborator
is called during construction (the calls all sit inside click closures). -/
def addSubMenuCommandsFolderE (env : EnvE ε) (s : Settings) (folder : TFolder)
    (branchName : String) (originalMenu : List MenuEntry) : ME ε (List MenuEntry) :=
  ME.pure (
    let subMenu := if env.isDesktop then ([] : List MenuEntry) else originalMenu
    let subMenu := subMenu ++
      [MenuEntry.item
        (some (Title.shareMultipleOn (jsToUpper (env.t "common.default")) folder.name))
        (some "folder-up") none false (some (Action.shareFolderDefault folder branchName)) none]
    let activatedRepoCommands := s.otherRepo.filter (fun repo => repo.createShortcuts)
    let subMenu :=
      if decide (activatedRepoCommands.length > 0) then
        subMenu ++ activatedRepoCommands.map (fun otherRepo =>
          MenuEntry.item
            (some (Title.shareMultipleOn (jsToUpper otherRepo.smartKey) folder.name))
            (some "folder-up") none false
            (some (Action.shareFolderWith folder branchName otherRepo)) none)
      else subMenu
    subMenu ++
      [MenuEntry.item (some Title.shareOther) (some "folder-symlink") none false
        (some (Action.chooseRepoFolder folder branchName)) none])

/-- Instrumented `subMenuCommandsFile` (lines 170-264): the construction-time
collaborator calls are `getFileCache`, `getTitleFieldForCommand` and
`getRepoFrontmatter`; everything else is deferred to click closures. -/
def subMenuCommandsFileE (env : EnvE ε) (s : Settings) (file : AFile)
    (branchName : String) (repo : Option Repository)
    (originalMenu : List MenuEntry) : ME ε (List MenuEntry) :=
  ME.bind (callE (CallE.getFileCache file) (env.getFileCache file)) (fun cache =>
  ME.bind (callE (CallE.getTitleFieldForCommand file (cache.bind id))
      (env.getTitleFieldForCommand file (cache.bind id))) (fun title =>
  ME.bind (callE (CallE.getRepoFrontmatter repo (cache.bind id))
      (env.getRepoFrontmatter s repo (cache.bind id))) (fun rf =>
  ME.pure (
    let frontmatter := cache.bind id
    let fileName := jsReplaceFirst title ".md" ""
    let subMenu := if env.isDesktop then ([] : List MenuEntry) else originalMenu
    let repoFrontmatter :=
      match rf with
      | RepoFM.single r => [r]
      | RepoFM.multiple rs => rs
    let subMenu :=
      if ((match repo with
            | some r => r.shareKey == s.shareKey
            | none => false) || fmHas frontmatter s.shareKey)
          && (!fmHas frontmatter "repo" || !fmHas frontmatter "multipleRepo") then
        subMenu ++
          [MenuEntry.item
            (some (Title.shareMultipleOn (jsToUpper (env.t "common.default")) fileName))
            (some "file-up") none false
            (some (Action.shareOneNoteDefault branchName fileName)) none]
      else subMenu
    let activatedRepoCommands := s.otherRepo.filter (fun r => r.createShortcuts)
    let subMenu :=
      if decide (activatedRepoCommands.length > 0) then
        subMenu ++
          (activatedRepoCommands.filter (fun otherRepo =>
            (match repo with
              | some r => otherRepo.shareKey == r.shareKey
              | none => false) || fmHas frontmatter otherRepo.shareKey)).map
            (fun otherRepo =>
              MenuEntry.item
                (some (Title.shareMultipleOn (jsToUpper otherRepo.smartKey) fileName))
                (some "file-up") none false
                (some (Action.shareOneNote branchName (some otherRepo) fileName)) none)
      else subMenu
    let subMenu :=
      if decide (repoFrontmatter.length > 1) then
        subMenu ++ repoFrontmatter.map (fun repoFront =>
          MenuEntry.item
            (some (Title.shareMultipleOn (jsToUpper repoFront.repo) fileName))
            (some "file-up") none false
            (some (Action.shareOneNote branchName repo fileName)) none)
      else subMenu
    subMenu ++
      [MenuEntry.item (some Title.shareOther) (some "file-input") none false
        (some (Action.chooseRepoFile (repo.map (fun r => r.shareKey)) branchName file.basename))
        none]))))

/-- Instrumented single-item repository resolution (lines 133-139); the
`defaultRepo` collaborator is consulted during construction in the
share-all branches. -/
def resolveSingleRepoE (env : EnvE ε) (s : Settings) (frontmatter : Option Frontmatter)
    (getSharedKey : Option Repository) : ME ε (Option Repository) :=
  if frontmatter.isNone || !fmHas frontmatter s.shareKey then
    match s.otherRepo.find? (fun repo => repo.shareAllEnable) with
    | some otherRepo => ME.pure (some otherRepo)
    | none =>
      if s.shareAllEnable then
        ME.bind (callE CallE.defaultRepo (env.defaultRepo s)) (fun d => ME.pure (some d))
      else ME.pure getSharedKey
  else if fmHas frontmatter s.shareKey then
    ME.bind (callE CallE.defaultRepo (env.defaultRepo s)) (fun d => ME.pure (some d))
  else ME.pure getSharedKey

/-- Instrumented `addMenuFile` (lines 97-157). -/
def addMenuFileE (env : EnvE ε) (s : Settings) (file : AFile) (branchName : String)
    (menu : List MenuEntry) : ME ε (List MenuEntry) :=
  ME.bind
    (if file.isTFile then
      ME.bind (callE (CallE.getFileCache file) (env.getFileCache file)) (fun cache =>
        match cache with
        | none => throwE env.typeError
        | some fm => ME.pure fm)
    else ME.pure none)
    (fun frontmatter =>
  ME.bind (callE (CallE.getRepoSharedKey frontmatter) (env.getRepoSharedKey s frontmatter))
    (fun getSharedKey =>
  ME.bind (callE (CallE.multipleSharedKey frontmatter) (env.multipleSharedKey frontmatter s))
    (fun allKeysFromFile =>
  ME.bind (callE (CallE.isShared frontmatter file getSharedKey)
      (env.isShared frontmatter s file getSharedKey)) (fun shared =>
  if shared && s.fileMenu then
    ME.bind (callE (CallE.getRepoFrontmatter getSharedKey frontmatter)
        (env.getRepoFrontmatter s getSharedKey frontmatter)) (fun repoFrontmatter =>
    if decide (allKeysFromFile.length > 1) || isMultiArray repoFrontmatter then
      if env.isDesktop then
        ME.bind (subMenuCommandsFileE env s file branchName getSharedKey menu) (fun sub =>
          ME.pure (menu ++
            [MenuEntry.item (some Title.githubPublisher) (some "upload-cloud") none false none
              (some sub)]))
      else
        subMenuCommandsFileE env s file branchName getSharedKey
          (menu ++ [MenuEntry.item none none none true none none, MenuEntry.separator])
    else
      ME.bind (callE (CallE.getFileCache file) (env.getFileCache file)) (fun cache2 =>
      ME.bind (callE (CallE.getTitleFieldForCommand file (cache2.bind id))
          (env.getTitleFieldForCommand file (cache2.bind id))) (fun title =>
      ME.bind (resolveSingleRepoE env s frontmatter getSharedKey) (fun getSharedKey2 =>
      ME.pure (
        let fileName := jsReplaceFirst title ".md" ""
        menu ++
          [MenuEntry.item
            (some (Title.shareMultipleOn
              (match getSharedKey2 with
                | some r =>
                  if jsToUpper r.smartKey == "" then jsToUpper (env.t "common.default")
                  else jsToUpper r.smartKey
                | none => jsToUpper (env.t "common.default"))
              fileName))
            (some "file-up") none false
            (some (Action.shareOneNote branchName getSharedKey2 fileName)) none])))))
  else ME.pure menu))))

/-- Instrumented `addMenuFolder` (lines 273-309): no collaborator is called
during construction. -/
def addMenuFolderE (env : EnvE ε) (s : Settings) (folder : TFolder)
    (branchName : String) (menu : List MenuEntry) : ME ε (List MenuEntry) :=
  if decide (s.otherRepo.length > 0) then
    if env.isDesktop then
      ME.bind (addSubMenuCommandsFolderE env s folder branchName menu) (fun sub =>
        ME.pure (menu ++
          [MenuEntry.item (some Title.githubPublisher) (some "upload-cloud") none false none
            (some sub)]))
    else
      addSubMenuCommandsFolderE env s folder branchName
        (menu ++ [MenuEntry.item none none none true none none, MenuEntry.separator])
  else
    ME.pure (menu ++
      [MenuEntry.item
        (some (Title.shareMultipleOn (jsToUpper (env.t "common.default")) folder.name))
        (some "folder-up") (some "action") false
        (some (Action.shareFolderDefault folder branchName)) none])

/-- Firing a click closure, instrumented: performs (and logs) the
collaborator calls the source closure makes, in source order. -/
def runClickE (env : EnvE ε) (s : Settings) : Action → ME ε Unit
  | Action.shareOneNote b r fn =>
    ME.bind (callE CallE.reloadOctokit env.reloadOctokit) (fun _ =>
    ME.bind (callE (CallE.shareOneNote b r fn) (env.shareOneNote b r fn)) (fun _ =>
    ME.pure ()))
  | Action.shareOneNoteDefault b fn =>
    ME.bind (callE CallE.reloadOctokit env.reloadOctokit) (fun _ =>
    ME.bind (callE CallE.defaultRepo (env.defaultRepo s)) (fun d =>
    ME.bind (callE (CallE.shareOneNote b (some d) fn) (env.shareOneNote b (some d) fn)) (fun _ =>
    ME.pure ())))
  | Action.shareFolderDefault folder b =>
    ME.bind (callE (CallE.getRepoSharedKey none) (env.getRepoSharedKey s none)) (fun r =>
    ME.bind (shareFolderRepoE env s folder b r) (fun _ =>
    ME.pure ()))
  | Action.shareFolderWith folder b r =>
    ME.bind (shareFolderRepoE env s folder b (some r)) (fun _ =>
    ME.pure ())
  | Action.chooseRepoFile _ _ _ =>
    ME.bind (callE CallE.openChooseRepoToRun (Except.ok ())) (fun _ =>
    ME.pure ())
  | Action.chooseRepoFolder _ _ =>
    ME.bind (callE CallE.openChooseRepoToRun (Except.ok ())) (fun _ =>
    ME.pure ())

/-- Whether a logged call is a share dispatch (`shareOneNote` or
`shareAllMarkedNotes`). -/
def isShareCall : CallE → Bool
  | CallE.shareOneNote _ _ _ => true
  | CallE.shareAllMarkedNotes _ => true
  | _ => false

/-- A computation adds no share dispatch to the call log. -/
def AddsNoShare (x : ME ε α) : Prop :=
  ∀ l, ((x l).2).filter isShareCall = l.filter isShareCall

/-- An error value a collaborator of the environment (or the host
runtime, for `typeError`) can raise. -/
def EnvE.Throws (env : EnvE ε) (e : ε) : Prop :=
  e = env.typeError ∨
  (∃ f, env.getFileCache f = Except.error e) ∨
  (∃ s fm, env.getRepoSharedKey s fm = Except.error e) ∨
  (∃ fm s, env.multipleSharedKey fm s = Except.error e) ∨
  (∃ fm s f r, env.isShared fm s f r = Except.error e) ∨
  (∃ s r fm, env.getRepoFrontmatter s r fm = Except.error e) ∨
  (∃ s, env.defaultRepo s = Except.error e) ∨
  (∃ f fm, env.getTitleFieldForCommand f fm = Except.error e) ∨
  env.reloadOctokit = Except.error e ∨
  (∃ fo r, env.getSharedFileOfFolder fo r = Except.error e) ∨
  (∃ b r fn, env.shareOneNote b r fn = Except.error e) ∨
  (∃ d, env.shareAllMarkedNotes d = Except.error e)

/-- Lift a pure environment to a never-throwing instrumented environment
(`te` is the host `TypeError` value). -/
def liftEnvE (p : Env) (te : ε) : EnvE ε where
  isDesktop := p.isDesktop
  t := p.t
  typeError := te
  getFileCache := fun f => Except.ok (p.getFileCache f)
  getRepoSharedKey := fun s fm => Except.ok (p.getRepoSharedKey s fm)
  multipleSharedKey := fun fm s => Except.ok (p.multipleSharedKey fm s)
  isShared := fun fm s f r => Except.ok (p.isShared fm s f r)
  getRepoFrontmatter := fun s r fm => Except.ok (p.getRepoFrontmatter s r fm)
  defaultRepo := fun s => Except.ok (p.defaultRepo s)
  getTitleFieldForCommand := fun f fm => Except.ok (p.getTitleFieldForCommand f fm)
  reloadOctokit := Except.ok ()
  getSharedFileOfFolder := fun fo r => Except.ok (p.getSharedFileOfFolder fo r)
  shareOneNote := fun _ _ _ => Except.ok ()
  shareAllMarkedNotes := fun _ => Except.ok ()

/-- Shape of the single action item `addMenuFile` adds in its non-submenu
case: a "file-up" item whose click shares the note with `repo2`. -/
def singleShareItem (env : Env) (file : AFile) (b : String) (ttl : Title)
    (repo2 : Option Repository) : MenuEntry :=
  MenuEntry.item (some ttl) (some "file-up") none false
    (some (Action.shareOneNote b repo2 (fileTitle env file))) none

/-! Concrete fixtures used by witnesses and counterexamples. -/

/-- A repository whose display name differs from every repository name
occurring in the multi-repository frontmatter fixture. -/
def repoA : Repository := ⟨"zzz", "otherkey", false, false⟩

/-- Settings fixture: no other repository, file menu enabled. -/
def settingsA : Settings := ⟨[], true, "share", false⟩

/-- Settings fixture with one other repository having `shareAll` enabled. -/
def settingsB : Settings := ⟨[⟨"orkey", "ork", true, false⟩], true, "share", false⟩

/-- A markdown file fixture. -/
def fileA : AFile := ⟨"note", true⟩

/-- A folder fixture. -/
def folderA : TFolder := ⟨"Docs"⟩

/-- Environment fixture: desktop, identity translations, empty frontmatter
in the cache, a two-element repository frontmatter list. -/
def envA : Env :=
  { isDesktop := true
    t := fun k => k
    getFileCache := fun _ => some (some ⟨[]⟩)
    getRepoSharedKey := fun _ _ => none
    multipleSharedKey := fun _ _ => []
    isShared := fun _ _ _ _ => true
    getRepoFrontmatter := fun _ _ _ => RepoFM.multiple [⟨"aaa"⟩, ⟨"bbb"⟩]
    defaultRepo := fun _ => repoA
    getTitleFieldForCommand := fun _ _ => "note.md"
    getSharedFileOfFolder := fun _ _ => [] }

/-- Environment fixture whose metadata cache has no entry for any file. -/
def envNoCache : Env :=
  { envA with getFileCache := fun _ => none }

/-- Environment fixture with an absent frontmatter and a single-repository
frontmatter value. -/
def envB : Env :=
  { envA with
    getFileCache := fun _ => some none
    getRepoFrontmatter := fun _ _ _ => RepoFM.single ⟨"x"⟩ }

/-- An instrumented environment where every collaborator throws `0`
and the host `TypeError` is `1`. -/
def envEfail : EnvE Nat :=
  { isDesktop := true
    t := fun k => k
    typeError := 1
    getFileCache := fun _ => Except.error 0
    getRepoSharedKey := fun _ _ => Except.error 0
    multipleSharedKey := fun _ _ => Except.error 0
    isShared := fun _ _ _ _ => Except.error 0
    getRepoFrontmatter := fun _ _ _ => Except.error 0
    defaultRepo := fun _ => Except.error 0
    getTitleFieldForCommand := fun _ _ => Except.error 0
    reloadOctokit := Except.error 0
    getSharedFileOfFolder := fun _ _ => Except.error 0
    shareOneNote := fun _ _ _ => Except.error 0
    shareAllMarkedNotes := fun _ => Except.error 0 }

/-- The never-throwing lift of `envA`. -/
def envEok : EnvE Nat := liftEnvE envA 1

/-- The call log produced by `resolveSingleRepoE` under a never-throwing
environment (proof infrastructure for the lifted-run lemma). -/
def resolveSingleRepoELog (s : Settings) (fm : Option Frontmatter) (l : List CallE) :
    List CallE :=
  if fm.isNone || !fmHas fm s.shareKey then
    match s.otherRepo.find? (fun repo => repo.shareAllEnable) with
    | some _ => l
    | none => if s.shareAllEnable then l ++ [CallE.defaultRepo] else l
  else if fmHas fm s.shareKey then l ++ [CallE.defaultRepo]
  else l

/-! Helper lemmas. -/

/-- Push a conditional entry-append out of the conditional. -/
theorem ite_append_eq {c : Prop} [Decidable c] (l x : List MenuEntry) :
    (if c then l ++ x else l) = l ++ (if c then x else []) := by
  split <;> simp

/-- An append chain on top of `orig` is `orig` followed by a nonempty tail. -/
theorem exists_tail (orig A B C D : List MenuEntry) (hD : D ≠ []) :
    ∃ tail, (((orig ++ A) ++ B) ++ C) ++ D = orig ++ tail ∧ tail ≠ [] :=
  ⟨A ++ (B ++ (C ++ D)), by simp [List.append_assoc], by simp [hD]⟩

/-- `subMenuCommandsFile` only appends to the menu it builds on. -/
theorem subMenuCommandsFile_append (env : Env) (s : Settings) (file : AFile)
    (b : String) (repo : Option Repository) (orig : List MenuEntry) :
    ∃ tail, subMenuCommandsFile env s file b repo orig =
      (if env.isDesktop then ([] : List MenuEntry) else orig) ++ tail ∧ tail ≠ [] := by
  simp only [subMenuCommandsFile, ite_append_eq]
  by_cases hd : env.isDesktop = true
  · rw [if_pos hd]
    exact exists_tail [] _ _ _ _ (by simp)
  · rw [if_neg hd]
    exact exists_tail orig _ _ _ _ (by simp)

/-- Claim C10: every submenu built by this module (`subMenuCommandsFile` and
`addSubMenuCommandsFolder`), for every configuration, frontmatter, file and
folder, ends with an "other repository" entry whose click opens the
`ChooseRepoToRun` chooser. -/
theorem claimC10 (env : Env) (s : Settings) (file : AFile) (folder : TFolder)
    (b : String) (repo : Option Repository) (origF origD : List MenuEntry) :
    (subMenuCommandsFile env s file b repo origF).getLast? =
      some (MenuEntry.item (some Title.shareOther) (some "file-input") none false
        (some (Action.chooseRepoFile (repo.map (fun r => r.shareKey)) b file.basename)) none) ∧
    (addSubMenuCommandsFolder env s folder b origD).getLast? =
      some (MenuEntry.item (some Title.shareOther) (some "folder-symlink") none false
        (some (Action.chooseRepoFolder folder b)) none) := by
  constructor
  · simp only [subMenuCommandsFile]
    exact List.getLast?_concat _
  · simp only [addSubMenuCommandsFolder]
    exact List.getLast?_concat _

/-- Claim C6: the submenu built by `addSubMenuCommandsFolder` contains
exactly one entry per configured other repository whose `createShortcuts`
flag is set, plus one default-repository entry and one chooser entry, and
nothing else (beyond the menu it builds on). -/
theorem claimC6 (env : Env) (s : Settings) (folder : TFolder) (b : String)
    (orig : List MenuEntry) :
    addSubMenuCommandsFolder env s folder b orig =
      (if env.isDesktop then ([] : List MenuEntry) else orig) ++
      [MenuEntry.item (some (Title.shareMultipleOn (jsToUpper (env.t "common.default")) folder.name))
        (some "folder-up") none false (some (Action.shareFolderDefault folder b)) none] ++
      (s.otherRepo.filter (fun r => r.createShortcuts)).map (fun otherRepo =>
        MenuEntry.item (some (Title.shareMultipleOn (jsToUpper otherRepo.smartKey) folder.name))
          (some "folder-up") none false
          (some (Action.shareFolderWith folder b otherRepo)) none) ++
      [MenuEntry.item (some Title.shareOther) (some "folder-symlink") none false
        (some (Action.chooseRepoFolder folder b)) none] := by
  simp only [addSubMenuCommandsFolder]
  split
  · simp [List.append_assoc]
  · rename_i h
    have h0 : s.otherRepo.filter (fun r => r.createShortcuts) = [] := by
      refine List.length_eq_zero.mp (Nat.eq_zero_of_not_pos ?_)
      simpa using h
    simp [h0]

/-- Claim C1 counterexample: it is not the case that every submenu entry
built from a multi-repository frontmatter list invokes `shareOneNote` with
the repository its title names.  At this input the frontmatter list is
`[aaa, bbb]`, the entry titled `AAA` (and likewise `BBB`) invokes
`shareOneNote` with the fixed `repo` parameter, whose display name is
`ZZZ`. -/
theorem claimC1_counterexample :
    ¬ (∀ e ∈ subMenuCommandsFile envA settingsA fileA "main" (some repoA) [],
        ∀ sk doc icon sec lab b r fn sub,
          e = MenuEntry.item (some (Title.shareMultipleOn sk doc)) icon sec lab
                (some (Action.shareOneNote b r fn)) sub →
          ∃ rep, r = some rep ∧ jsToUpper rep.smartKey = sk) := by
  intro h
  have hm : (MenuEntry.item (some (Title.shareMultipleOn "AAA" "note")) (some "file-up") none false
      (some (Action.shareOneNote "main" (some repoA) "note")) none) ∈
      subMenuCommandsFile envA settingsA fileA "main" (some repoA) [] := by
    have he : subMenuCommandsFile envA settingsA fileA "main" (some repoA) [] =
      [MenuEntry.item (some (Title.shareMultipleOn "AAA" "note")) (some "file-up") none false
        (some (Action.shareOneNote "main" (some repoA) "note")) none,
       MenuEntry.item (some (Title.shareMultipleOn "BBB" "note")) (some "file-up") none false
        (some (Action.shareOneNote "main" (some repoA) "note")) none,
       MenuEntry.item (some Title.shareOther) (some "file-input") none false
        (some (Action.chooseRepoFile (some "otherkey") "main" "note")) none] := rfl
    rw [he]
    exact List.mem_cons_self _ _
  obtain ⟨rep, hr, hsk⟩ :=
    h _ hm "AAA" "note" (some "file-up") none false "main" (some repoA) "note" none rfl
  have hrep : rep = repoA := by
    injection hr with h1
    exact h1.symm
  rw [hrep] at hsk
  exact absurd hsk (by decide)

/-- Claim C1 (amended): when the resolved repository frontmatter is a list
with more than one entry, `subMenuCommandsFile` creates one submenu entry
per list entry, titled with the repository name of that entry, but every such
entry, when clicked, invokes `shareOneNote` with the `repo` parameter the
submenu was built for (the repository resolved for the file as a whole),
regardless of which list entry its title names. -/
theorem claimC1_amended (env : Env) (s : Settings) (file : AFile) (b : String)
    (repo : Option Repository) (orig : List MenuEntry) (rs : List RepoFrontmatter)
    (hrf : env.getRepoFrontmatter s repo ((env.getFileCache file).bind id) = RepoFM.multiple rs)
    (hlen : rs.length > 1) :
    ∃ pre, subMenuCommandsFile env s file b repo orig =
      pre ++ rs.map (fun repoFront =>
        MenuEntry.item (some (Title.shareMultipleOn (jsToUpper repoFront.repo) (fileTitle env file)))
          (some "file-up") none false
          (some (Action.shareOneNote b repo (fileTitle env file))) none) ++
      [MenuEntry.item (some Title.shareOther) (some "file-input") none false
        (some (Action.chooseRepoFile (repo.map (fun r => r.shareKey)) b file.basename)) none] := by
  have hl : decide (rs.length > 1) = true := decide_eq_true hlen
  simp only [subMenuCommandsFile, fileTitle, hrf, hl, if_true]
  exact ⟨_, rfl⟩

/-- Witness for claim C1 (amended) at the concrete fixture. -/
theorem claimC1_amended_witness :
    ∃ pre, subMenuCommandsFile envA settingsA fileA "main" (some repoA) [] =
      pre ++ ([⟨"aaa"⟩, ⟨"bbb"⟩] : List RepoFrontmatter).map (fun repoFront =>
        MenuEntry.item
          (some (Title.shareMultipleOn (jsToUpper repoFront.repo) (fileTitle envA fileA)))
          (some "file-up") none false
          (some (Action.shareOneNote "main" (some repoA) (fileTitle envA fileA))) none) ++
      [MenuEntry.item (some Title.shareOther) (some "file-input") none false
        (some (Action.chooseRepoFile ((some repoA).map (fun r => r.shareKey)) "main"
          fileA.basename)) none] :=
  claimC1_amended envA settingsA fileA "main" (some repoA) [] [⟨"aaa"⟩, ⟨"bbb"⟩] rfl (by decide)

/-- Claim C5: `addMenuFolder` builds a nested menu of items (desktop: an
item carrying the submenu; mobile: the submenu inline after a label and a
separator) if and only if the settings list at least one other repository;
otherwise it builds exactly one item that, when clicked, shares the folder
with the repository resolved by `getRepoSharedKey`. -/
theorem claimC5 (env : Env) (s : Settings) (folder : TFolder) (b : String)
    (menu : List MenuEntry) :
    (s.otherRepo ≠ [] →
      (env.isDesktop = true → addMenuFolder env s folder b menu =
        menu ++ [MenuEntry.item (some Title.githubPublisher) (some "upload-cloud") none false none
          (some (addSubMenuCommandsFolder env s folder b menu))]) ∧
      (env.isDesktop = false → addMenuFolder env s folder b menu =
        addSubMenuCommandsFolder env s folder b
          (menu ++ [MenuEntry.item none none none true none none, MenuEntry.separator]))) ∧
    (s.otherRepo = [] →
      addMenuFolder env s folder b menu =
        menu ++ [MenuEntry.item
          (some (Title.shareMultipleOn (jsToUpper (env.t "common.default")) folder.name))
          (some "folder-up") (some "action") false
          (some (Action.shareFolderDefault folder b)) none] ∧
      dispatchOf env s (Action.shareFolderDefault folder b) =
        [Dispatch.all (shareFolderRepo env s folder b (env.getRepoSharedKey s none))]) := by
  constructor
  · intro hne
    have hlen : decide (s.otherRepo.length > 0) = true := by
      simp only [decide_eq_true_eq]
      exact List.length_pos.mpr hne
    constructor
    · intro hd
      simp [addMenuFolder, hlen, hd]
    · intro hd
      simp [addMenuFolder, hlen, hd]
  · intro hnil
    have hlen : decide (s.otherRepo.length > 0) = false := by simp [hnil]
    exact ⟨by simp [addMenuFolder, hlen], rfl⟩

/-- Witness for claim C5 at the concrete fixture (no other repository). -/
theorem claimC5_witness :
    addMenuFolder envA settingsA folderA "main" [] =
      [MenuEntry.item (some (Title.shareMultipleOn "COMMON.DEFAULT" "Docs"))
        (some "folder-up") (some "action") false
        (some (Action.shareFolderDefault folderA "main")) none] ∧
    dispatchOf envA settingsA (Action.shareFolderDefault folderA "main") =
      [Dispatch.all (shareFolderRepo envA settingsA folderA "main"
        (envA.getRepoSharedKey settingsA none))] :=
  (claimC5 envA settingsA folderA "main" []).2 rfl

/-- Claim C2: `addMenuFile` adds a publish entry only when the file is
shared (`isShared`) and the `fileMenu` setting is enabled; otherwise the
menu is left unchanged (assuming the metadata cache has an entry, so the
non-null assertion of line 98 does not fail). -/
theorem claimC2 (env : Env) (s : Settings) (file : AFile) (b : String)
    (menu : List MenuEntry) (c : Option Frontmatter)
    (hc : env.getFileCache file = some c) :
    ∃ m2, addMenuFile env s file b menu = some m2 ∧
      ((env.isShared (fmUsed file c) s file (env.getRepoSharedKey s (fmUsed file c))
          && s.fileMenu) = false → m2 = menu) ∧
      ((env.isShared (fmUsed file c) s file (env.getRepoSharedKey s (fmUsed file c))
          && s.fileMenu) = true → ∃ added, added ≠ [] ∧ m2 = menu ++ added) := by
  have hcached : (if file.isTFile then env.getFileCache file else some none) =
      some (fmUsed file c) := by
    cases hft : file.isTFile <;> simp [fmUsed, hft, hc]
  simp only [addMenuFile, hcached]
  cases hcond : (env.isShared (fmUsed file c) s file
      (env.getRepoSharedKey s (fmUsed file c)) && s.fileMenu) with
  | false =>
    simp only [hcond, Bool.false_eq_true, if_false]
    exact ⟨menu, rfl, fun _ => rfl, fun h => absurd h (by simp)⟩
  | true =>
    simp only [hcond, if_true]
    refine ⟨_, rfl, fun h => absurd h (by simp), fun _ => ?_⟩
    split
    · split
      · refine ⟨_, ?_, rfl⟩
        simp
      · rename_i hdesk
        obtain ⟨tail, ht, hne⟩ := subMenuCommandsFile_append env s file b
          (env.getRepoSharedKey s (fmUsed file c))
          (menu ++ [MenuEntry.item none none none true none none, MenuEntry.separator])
        rw [if_neg hdesk] at ht
        rw [ht]
        exact ⟨[MenuEntry.item none none none true none none, MenuEntry.separator] ++ tail,
          by simp, by simp [List.append_assoc]⟩
    · refine ⟨_, ?_, rfl⟩
      simp

/-- Witness for claim C2 at the concrete fixture. -/
theorem claimC2_witness : ∃ m2, addMenuFile envA settingsA fileA "main" [] = some m2 :=
  Exists.imp (fun _ h => h.1) (claimC2 envA settingsA fileA "main" [] (some ⟨[]⟩) rfl)

/-- Claim C3: for a shared file (with `fileMenu` enabled and a cache
entry), `addMenuFile` presents a submenu of choices if and only if
`multipleSharedKey` returns more than one key or the resolved repository
frontmatter is an array of length greater than one; otherwise it presents
a single action item. -/
theorem claimC3 (env : Env) (s : Settings) (file : AFile) (b : String)
    (menu : List MenuEntry) (c : Option Frontmatter)
    (hc : env.getFileCache file = some c)
    (hsh : env.isShared (fmUsed file c) s file (env.getRepoSharedKey s (fmUsed file c)) = true)
    (hfm : s.fileMenu = true) :
    ∃ m2, addMenuFile env s file b menu = some m2 ∧
      ((decide ((env.multipleSharedKey (fmUsed file c) s).length > 1) ||
          isMultiArray (env.getRepoFrontmatter s (env.getRepoSharedKey s (fmUsed file c))
            (fmUsed file c))) = true →
        (env.isDesktop = true → m2 = menu ++
          [MenuEntry.item (some Title.githubPublisher) (some "upload-cloud") none false none
            (some (subMenuCommandsFile env s file b (env.getRepoSharedKey s (fmUsed file c)) menu))]) ∧
        (env.isDesktop = false → m2 = subMenuCommandsFile env s file b
          (env.getRepoSharedKey s (fmUsed file c))
          (menu ++ [MenuEntry.item none none none true none none, MenuEntry.separator]))) ∧
      ((decide ((env.multipleSharedKey (fmUsed file c) s).length > 1) ||
          isMultiArray (env.getRepoFrontmatter s (env.getRepoSharedKey s (fmUsed file c))
            (fmUsed file c))) = false →
        ∃ ttl repo2, m2 = menu ++ [singleShareItem env file b ttl repo2]) := by
  have hcached : (if file.isTFile then env.getFileCache file else some none) =
      some (fmUsed file c) := by
    cases hft : file.isTFile <;> simp [fmUsed, hft, hc]
  simp only [addMenuFile, hcached, hsh, hfm, Bool.and_self, if_true]
  cases hmulti : (decide ((env.multipleSharedKey (fmUsed file c) s).length > 1) ||
      isMultiArray (env.getRepoFrontmatter s (env.getRepoSharedKey s (fmUsed file c))
        (fmUsed file c))) with
  | true =>
    simp only [hmulti, if_true]
    refine ⟨_, rfl, fun _ => ⟨fun hd => by simp only [hd, if_true], fun hd => by simp [hd]⟩,
      fun h => absurd h (by simp)⟩
  | false =>
    simp only [hmulti, Bool.false_eq_true, if_false]
    refine ⟨_, rfl, fun h => absurd h (by simp), fun _ => ?_⟩
    exact ⟨_, _, rfl⟩

/-- Witness for claim C3 at the concrete fixture (submenu case, desktop). -/
theorem claimC3_witness :
    ∃ m2, addMenuFile envA settingsA fileA "main" [] = some m2 ∧
      m2 = [] ++ [MenuEntry.item (some Title.githubPublisher) (some "upload-cloud") none false none
        (some (subMenuCommandsFile envA settingsA fileA "main"
          (envA.getRepoSharedKey settingsA (fmUsed fileA (some ⟨[]⟩))) []))] := by
  obtain ⟨m2, h1, h2, _⟩ := claimC3 envA settingsA fileA "main" [] (some ⟨[]⟩) rfl rfl rfl
  exact ⟨m2, h1, (h2 rfl).1 rfl⟩

/-- Claim C4: in the single-item case, the repository target of the added
item is `resolveSingleRepo`, which resolves as the claim describes: if the
frontmatter is absent or lacks the share key, the first other repository
with `shareAll` enabled, or else the default repository when the
plugin-level `shareAll` is enabled; if the frontmatter has the share key,
the default repository. -/
theorem claimC4 (env : Env) (s : Settings) (file : AFile) (b : String)
    (menu : List MenuEntry) (c : Option Frontmatter)
    (hc : env.getFileCache file = some c)
    (hsh : env.isShared (fmUsed file c) s file (env.getRepoSharedKey s (fmUsed file c)) = true)
    (hfm : s.fileMenu = true)
    (hmulti : (decide ((env.multipleSharedKey (fmUsed file c) s).length > 1) ||
        isMultiArray (env.getRepoFrontmatter s (env.getRepoSharedKey s (fmUsed file c))
          (fmUsed file c))) = false) :
    (∃ ttl, addMenuFile env s file b menu = some (menu ++ [singleShareItem env file b ttl
      (resolveSingleRepo env s (fmUsed file c) (env.getRepoSharedKey s (fmUsed file c)))])) ∧
    (∀ o, (fmUsed file c = none ∨ fmHas (fmUsed file c) s.shareKey = false) →
      s.otherRepo.find? (fun repo => repo.shareAllEnable) = some o →
      resolveSingleRepo env s (fmUsed file c) (env.getRepoSharedKey s (fmUsed file c)) = some o) ∧
    ((fmUsed file c = none ∨ fmHas (fmUsed file c) s.shareKey = false) →
      s.otherRepo.find? (fun repo => repo.shareAllEnable) = none →
      s.shareAllEnable = true →
      resolveSingleRepo env s (fmUsed file c) (env.getRepoSharedKey s (fmUsed file c)) =
        some (env.defaultRepo s)) ∧
    (fmHas (fmUsed file c) s.shareKey = true →
      resolveSingleRepo env s (fmUsed file c) (env.getRepoSharedKey s (fmUsed file c)) =
        some (env.defaultRepo s)) := by
  have hcached : (if file.isTFile then env.getFileCache file else some none) =
      some (fmUsed file c) := by
    cases hft : file.isTFile <;> simp [fmUsed, hft, hc]
  refine ⟨?_, ?_, ?_, ?_⟩
  · simp only [addMenuFile, hcached, hsh, hfm, Bool.and_self, if_true, hmulti,
      Bool.false_eq_true, if_false]
    exact ⟨_, rfl⟩
  · intro o hlacks hfind
    have hbool : ((fmUsed file c).isNone || !fmHas (fmUsed file c) s.shareKey) = true := by
      rcases hlacks with h | h
      · simp [h]
      · simp [h]
    simp only [resolveSingleRepo, hbool, if_true, hfind]
  · intro hlacks hfind hsa
    have hbool : ((fmUsed file c).isNone || !fmHas (fmUsed file c) s.shareKey) = true := by
      rcases hlacks with h | h
      · simp [h]
      · simp [h]
    simp only [resolveSingleRepo, hbool, if_true, hfind, hsa]
  · intro hhas
    have hnone : (fmUsed file c).isNone = false := by
      cases hval : fmUsed file c with
      | none => rw [hval] at hhas; exact absurd hhas (by simp [fmHas])
      | some f => simp
    simp only [resolveSingleRepo, hnone, hhas, Bool.not_true, Bool.false_or,
      Bool.false_eq_true, if_false, if_true]

/-- Witness for claim C4 at the concrete fixture (frontmatter absent, one
other repository with `shareAll` enabled). -/
theorem claimC4_witness :
    resolveSingleRepo envB settingsB none (envB.getRepoSharedKey settingsB none) =
      some ⟨"orkey", "ork", true, false⟩ :=
  (claimC4 envB settingsB fileA "main" [] none rfl rfl rfl rfl).2.1
    ⟨"orkey", "ork", true, false⟩ (Or.inl rfl) rfl

/-- Claim C9: `addMenuFile` dereferences the metadata cache entry with a
non-null assertion, so for a `TFile` with no cache entry the operation
fails (modelled by `none`); with a cache entry (or a non-`TFile` input) it
returns normally. -/
theorem claimC9 :
    (∀ (env : Env) (s : Settings) (file : AFile) (b : String) (menu : List MenuEntry),
      file.isTFile = true → env.getFileCache file = none →
      addMenuFile env s file b menu = none) ∧
    (∀ (env : Env) (s : Settings) (file : AFile) (b : String) (menu : List MenuEntry)
      (c : Option Frontmatter), env.getFileCache file = some c →
      ∃ m2, addMenuFile env s file b menu = some m2) ∧
    (∀ (env : Env) (s : Settings) (file : AFile) (b : String) (menu : List MenuEntry),
      file.isTFile = false → ∃ m2, addMenuFile env s file b menu = some m2) := by
  refine ⟨?_, ?_, ?_⟩
  · intro env s file b menu hft hc
    simp [addMenuFile, hft, hc]
  · intro env s file b menu c hc
    have hcached : (if file.isTFile then env.getFileCache file else some none) =
        some (fmUsed file c) := by
      cases hft : file.isTFile <;> simp [fmUsed, hft, hc]
    simp only [addMenuFile, hcached]
    split
    · exact ⟨_, rfl⟩
    · exact ⟨_, rfl⟩
  · intro env s file b menu hft
    simp only [addMenuFile, hft, Bool.false_eq_true, if_false]
    split
    · exact ⟨_, rfl⟩
    · exact ⟨_, rfl⟩

/-- Witness for claim C9: a `TFile` with no metadata-cache entry makes
`addMenuFile` fail. -/
theorem claimC9_witness : addMenuFile envNoCache settingsA fileA "main" [] = none :=
  claimC9.1 envNoCache settingsA fileA "main" [] rfl rfl

/-! Infrastructure for the instrumented embedding. -/

/-- `ME.pure` adds no share dispatch. -/
theorem noShare_pure {ε α : Type} (a : α) : AddsNoShare (ME.pure (ε := ε) a) :=
  fun _ => rfl

/-- `throwE` adds no share dispatch. -/
theorem noShare_throwE {ε α : Type} (e : ε) : AddsNoShare (throwE (α := α) e) :=
  fun _ => rfl

/-- A non-share collaborator call adds no share dispatch. -/
theorem noShare_callE {ε α : Type} (c : CallE) (r : Except ε α)
    (h : isShareCall c = false) : AddsNoShare (callE c r) := by
  intro l
  show ((r, l ++ [c]) : Except ε α × List CallE).2.filter isShareCall = l.filter isShareCall
  simp [List.filter_append, h]

/-- `ME.bind` preserves absence of share dispatches. -/
theorem noShare_bind {ε α β : Type} {x : ME ε α} {f : α → ME ε β}
    (hx : AddsNoShare x) (hf : ∀ a, AddsNoShare (f a)) : AddsNoShare (ME.bind x f) := by
  intro l
  unfold ME.bind
  cases hxl : x l with
  | mk r l2 =>
    have h2 : l2.filter isShareCall = l.filter isShareCall := by
      have h3 := hx l
      rw [hxl] at h3
      exact h3
    cases r with
    | ok a => exact ((hf a) l2).trans h2
    | error e2 => exact h2

/-- `subMenuCommandsFileE` dispatches no share during construction. -/
theorem subMenuCommandsFileE_noShare {ε : Type} (env : EnvE ε) (s : Settings) (file : AFile)
    (b : String) (repo : Option Repository) (orig : List MenuEntry) :
    AddsNoShare (subMenuCommandsFileE env s file b repo orig) := by
  unfold subMenuCommandsFileE
  refine noShare_bind (noShare_callE _ _ (by rfl)) (fun cache => ?_)
  refine noShare_bind (noShare_callE _ _ (by rfl)) (fun title => ?_)
  refine noShare_bind (noShare_callE _ _ (by rfl)) (fun rf => ?_)
  exact noShare_pure _

/-- `addSubMenuCommandsFolderE` dispatches no share during construction. -/
theorem addSubMenuCommandsFolderE_noShare {ε : Type} (env : EnvE ε) (s : Settings)
    (folder : TFolder) (b : String) (orig : List MenuEntry) :
    AddsNoShare (addSubMenuCommandsFolderE env s folder b orig) :=
  fun _ => rfl

/-- `addMenuFolderE` dispatches no share during construction. -/
theorem addMenuFolderE_noShare {ε : Type} (env : EnvE ε) (s : Settings)
    (folder : TFolder) (b : String) (menu : List MenuEntry) :
    AddsNoShare (addMenuFolderE env s folder b menu) := by
  unfold addMenuFolderE
  split
  · split
    · exact noShare_bind (addSubMenuCommandsFolderE_noShare _ _ _ _ _)
        (fun sub => noShare_pure _)
    · exact addSubMenuCommandsFolderE_noShare _ _ _ _ _
  · exact noShare_pure _

/-- `resolveSingleRepoE` dispatches no share during construction. -/
theorem resolveSingleRepoE_noShare {ε : Type} (env : EnvE ε) (s : Settings)
    (fm : Option Frontmatter) (k : Option Repository) :
    AddsNoShare (resolveSingleRepoE env s fm k) := by
  unfold resolveSingleRepoE
  split
  · split
    · exact noShare_pure _
    · split
      · exact noShare_bind (noShare_callE _ _ (by rfl)) (fun d => noShare_pure _)
      · exact noShare_pure _
  · split
    · exact noShare_bind (noShare_callE _ _ (by rfl)) (fun d => noShare_pure _)
    · exact noShare_pure _

/-- `addMenuFileE` dispatches no share during construction. -/
theorem addMenuFileE_noShare {ε : Type} (env : EnvE ε) (s : Settings) (file : AFile)
    (b : String) (menu : List MenuEntry) :
    AddsNoShare (addMenuFileE env s file b menu) := by
  unfold addMenuFileE
  refine noShare_bind ?_ (fun frontmatter => ?_)
  · split
    · refine noShare_bind (noShare_callE _ _ (by rfl)) (fun cache => ?_)
      cases cache with
      | none => exact noShare_throwE _
      | some fm => exact noShare_pure _
    · exact noShare_pure _
  · refine noShare_bind (noShare_callE _ _ (by rfl)) (fun getSharedKey => ?_)
    refine noShare_bind (noShare_callE _ _ (by rfl)) (fun allKeys => ?_)
    refine noShare_bind (noShare_callE _ _ (by rfl)) (fun shared => ?_)
    split
    · refine noShare_bind (noShare_callE _ _ (by rfl)) (fun repoFM => ?_)
      split
      · split
        · exact noShare_bind (subMenuCommandsFileE_noShare _ _ _ _ _ _)
            (fun sub => noShare_pure _)
        · exact subMenuCommandsFileE_noShare _ _ _ _ _ _
      · refine noShare_bind (noShare_callE _ _ (by rfl)) (fun cache2 => ?_)
        refine noShare_bind (noShare_callE _ _ (by rfl)) (fun title => ?_)
        exact noShare_bind (resolveSingleRepoE_noShare _ _ _ _) (fun k2 => noShare_pure _)
    · exact noShare_pure _

/-- Case analysis of an error produced by `ME.bind`. -/
theorem bind_error_elim {ε α β : Type} {x : ME ε α} {f : α → ME ε β} {l : List CallE} {e : ε}
    (h : ((ME.bind x f) l).1 = Except.error e) :
    (x l).1 = Except.error e ∨
    ∃ a l2, x l = (Except.ok a, l2) ∧ ((f a l2).1 = Except.error e) := by
  unfold ME.bind at h
  cases hxl : x l with
  | mk r l2 =>
    rw [hxl] at h
    cases r with
    | ok a => exact Or.inr ⟨a, l2, rfl, h⟩
    | error e2 =>
      left
      simpa using h

/-- Introduction lemmas for `EnvE.Throws`. -/
theorem throws_typeError {ε : Type} {env : EnvE ε} {e : ε} (h : e = env.typeError) :
    env.Throws e := Or.inl h

theorem throws_getFileCache {ε : Type} {env : EnvE ε} {e : ε} (f : AFile)
    (h : env.getFileCache f = Except.error e) : env.Throws e :=
  Or.inr (Or.inl ⟨f, h⟩)

theorem throws_getRepoSharedKey {ε : Type} {env : EnvE ε} {e : ε} (s : Settings)
    (fm : Option Frontmatter) (h : env.getRepoSharedKey s fm = Except.error e) :
    env.Throws e := Or.inr (Or.inr (Or.inl ⟨s, fm, h⟩))

theorem throws_multipleSharedKey {ε : Type} {env : EnvE ε} {e : ε} (fm : Option Frontmatter)
    (s : Settings) (h : env.multipleSharedKey fm s = Except.error e) :
    env.Throws e := Or.inr (Or.inr (Or.inr (Or.inl ⟨fm, s, h⟩)))

theorem throws_isShared {ε : Type} {env : EnvE ε} {e : ε} (fm : Option Frontmatter)
    (s : Settings) (f : AFile) (r : Option Repository)
    (h : env.isShared fm s f r = Except.error e) :
    env.Throws e := Or.inr (Or.inr (Or.inr (Or.inr (Or.inl ⟨fm, s, f, r, h⟩))))

theorem throws_getRepoFrontmatter {ε : Type} {env : EnvE ε} {e : ε} (s : Settings)
    (r : Option Repository) (fm : Option Frontmatter)
    (h : env.getRepoFrontmatter s r fm = Except.error e) :
    env.Throws e := Or.inr (Or.inr (Or.inr (Or.inr (Or.inr (Or.inl ⟨s, r, fm, h⟩)))))

theorem throws_defaultRepo {ε : Type} {env : EnvE ε} {e : ε} (s : Settings)
    (h : env.defaultRepo s = Except.error e) :
    env.Throws e :=
  Or.inr (Or.inr (Or.inr (Or.inr (Or.inr (Or.inr (Or.inl ⟨s, h⟩))))))

theorem throws_getTitle {ε : Type} {env : EnvE ε} {e : ε} (f : AFile)
    (fm : Option Frontmatter) (h : env.getTitleFieldForCommand f fm = Except.error e) :
    env.Throws e :=
  Or.inr (Or.inr (Or.inr (Or.inr (Or.inr (Or.inr (Or.inr (Or.inl ⟨f, fm, h⟩)))))))

theorem throws_reloadOctokit {ε : Type} {env : EnvE ε} {e : ε}
    (h : env.reloadOctokit = Except.error e) :
    env.Throws e :=
  Or.inr (Or.inr (Or.inr (Or.inr (Or.inr (Or.inr (Or.inr (Or.inr (Or.inl h))))))))

theorem throws_getSharedFileOfFolder {ε : Type} {env : EnvE ε} {e : ε} (fo : TFolder)
    (r : Option Repository) (h : env.getSharedFileOfFolder fo r = Except.error e) :
    env.Throws e :=
  Or.inr (Or.inr (Or.inr (Or.inr (Or.inr (Or.inr (Or.inr (Or.inr (Or.inr (Or.inl ⟨fo, r, h⟩)))))))))

theorem throws_shareAllMarkedNotes {ε : Type} {env : EnvE ε} {e : ε} (d : ShareAllDispatch)
    (h : env.shareAllMarkedNotes d = Except.error e) :
    env.Throws e :=
  Or.inr (Or.inr (Or.inr (Or.inr (Or.inr (Or.inr (Or.inr (Or.inr (Or.inr (Or.inr
    (Or.inr ⟨d, h⟩))))))))))

/-- `ME.pure` never produces an error. -/
theorem pure_not_error {ε α : Type} {a : α} {l : List CallE} {e : ε}
    (h : ((ME.pure a) l).1 = Except.error e) : False := by
  have h2 : (Except.ok a : Except ε α) = Except.error e := h
  exact Except.noConfusion h2

/-- Any error raised by `subMenuCommandsFileE` is one a collaborator raised. -/
theorem subMenuCommandsFileE_throws {ε : Type} (env : EnvE ε) (s : Settings) (file : AFile)
    (b : String) (repo : Option Repository) (orig : List MenuEntry) (l : List CallE) (e : ε)
    (h : ((subMenuCommandsFileE env s file b repo orig) l).1 = Except.error e) :
    env.Throws e := by
  unfold subMenuCommandsFileE at h
  rcases bind_error_elim h with h1 | ⟨cache, l2, hx1, h2⟩
  · exact throws_getFileCache file h1
  · rcases bind_error_elim h2 with h3 | ⟨title, l3, hx2, h4⟩
    · exact throws_getTitle file (cache.bind id) h3
    · rcases bind_error_elim h4 with h5 | ⟨rf, l4, hx3, h6⟩
      · exact throws_getRepoFrontmatter s repo (cache.bind id) h5
      · exact absurd h6 (fun hh => pure_not_error hh)

/-- Any error raised by `resolveSingleRepoE` is one a collaborator raised. -/
theorem resolveSingleRepoE_throws {ε : Type} (env : EnvE ε) (s : Settings)
    (fm : Option Frontmatter) (k : Option Repository) (l : List CallE) (e : ε)
    (h : ((resolveSingleRepoE env s fm k) l).1 = Except.error e) :
    env.Throws e := by
  unfold resolveSingleRepoE at h
  by_cases hb : (fm.isNone || !fmHas fm s.shareKey) = true
  · rw [if_pos hb] at h
    cases hfind : s.otherRepo.find? (fun repo => repo.shareAllEnable) with
    | some o =>
      rw [hfind] at h
      exact absurd h (fun hh => pure_not_error hh)
    | none =>
      rw [hfind] at h
      by_cases hsa : s.shareAllEnable = true
      · rw [if_pos hsa] at h
        rcases bind_error_elim h with h1 | ⟨d, l2, hx, h2⟩
        · exact throws_defaultRepo s h1
        · exact absurd h2 (fun hh => pure_not_error hh)
      · rw [if_neg hsa] at h
        exact absurd h (fun hh => pure_not_error hh)
  · rw [if_neg hb] at h
    by_cases hh2 : fmHas fm s.shareKey = true
    · rw [if_pos hh2] at h
      rcases bind_error_elim h with h1 | ⟨d, l2, hx, h2⟩
      · exact throws_defaultRepo s h1
      · exact absurd h2 (fun hh => pure_not_error hh)
    · rw [if_neg hh2] at h
      exact absurd h (fun hh => pure_not_error hh)

/-- Any error raised by `shareFolderRepoE` is one a collaborator raised. -/
theorem shareFolderRepoE_throws {ε : Type} (env : EnvE ε) (s : Settings) (folder : TFolder)
    (b : String) (repo : Option Repository) (l : List CallE) (e : ε)
    (h : ((shareFolderRepoE env s folder b repo) l).1 = Except.error e) :
    env.Throws e := by
  unfold shareFolderRepoE at h
  rcases bind_error_elim h with h1 | ⟨u, l2, hx1, h2⟩
  · exact throws_reloadOctokit h1
  · rcases bind_error_elim h2 with h3 | ⟨fmr, l3, hx2, h4⟩
    · exact throws_getRepoFrontmatter s repo none h3
    · rcases bind_error_elim h4 with h5 | ⟨files, l4, hx3, h6⟩
      · exact throws_getSharedFileOfFolder folder repo h5
      · rcases bind_error_elim h6 with h7 | ⟨u2, l5, hx4, h8⟩
        · exact throws_shareAllMarkedNotes _ h7
        · exact absurd h8 (fun hh => pure_not_error hh)

/-- Any error raised by `addMenuFileE` is one a collaborator raised or the host `TypeError`. -/
theorem addMenuFileE_throws {ε : Type} (env : EnvE ε) (s : Settings) (file : AFile)
    (b : String) (menu : List MenuEntry) (l : List CallE) (e : ε)
    (h : ((addMenuFileE env s file b menu) l).1 = Except.error e) :
    env.Throws e := by
  unfold addMenuFileE at h
  rcases bind_error_elim h with h1 | ⟨fm, l1, hx1, h2⟩
  · by_cases hft : file.isTFile = true
    · rw [if_pos hft] at h1
      rcases bind_error_elim h1 with h1a | ⟨cache, l0, hx0, h1b⟩
      · exact throws_getFileCache file h1a
      · cases cache with
        | none =>
          have h1c : (Except.error env.typeError : Except ε (Option Frontmatter)) =
            Except.error e := h1b
          injection h1c with he
          exact throws_typeError he.symm
        | some fmv => exact absurd h1b (fun hh => pure_not_error hh)
    · rw [if_neg hft] at h1
      exact absurd h1 (fun hh => pure_not_error hh)
  · rcases bind_error_elim h2 with h3 | ⟨key, l2, hx2, h4⟩
    · exact throws_getRepoSharedKey s fm h3
    · rcases bind_error_elim h4 with h5 | ⟨keys, l3, hx3, h6⟩
      · exact throws_multipleSharedKey fm s h5
      · rcases bind_error_elim h6 with h7 | ⟨shared, l4, hx4, h8⟩
        · exact throws_isShared fm s file key h7
        · by_cases hcond : (shared && s.fileMenu) = true
          · rw [if_pos hcond] at h8
            rcases bind_error_elim h8 with h9 | ⟨rfm, l5, hx5, h10⟩
            · exact throws_getRepoFrontmatter s key fm h9
            · by_cases hm : (decide (keys.length > 1) || isMultiArray rfm) = true
              · rw [if_pos hm] at h10
                by_cases hd : env.isDesktop = true
                · rw [if_pos hd] at h10
                  rcases bind_error_elim h10 with h11 | ⟨sub, l6, hx6, h12⟩
                  · exact subMenuCommandsFileE_throws env s file b key menu l5 e h11
                  · exact absurd h12 (fun hh => pure_not_error hh)
                · rw [if_neg hd] at h10
                  exact subMenuCommandsFileE_throws env s file b key _ l5 e h10
              · rw [if_neg hm] at h10
                rcases bind_error_elim h10 with h11 | ⟨cache2, l6, hx6, h12⟩
                · exact throws_getFileCache file h11
                · rcases bind_error_elim h12 with h13 | ⟨title, l7, hx7, h14⟩
                  · exact throws_getTitle file (cache2.bind id) h13
                  · rcases bind_error_elim h14 with h15 | ⟨k2, l8, hx8, h16⟩
                    · exact resolveSingleRepoE_throws env s fm key l7 e h15
                    · exact absurd h16 (fun hh => pure_not_error hh)
          · rw [if_neg hcond] at h8
            exact absurd h8 (fun hh => pure_not_error hh)


/-- Under a never-throwing environment, `subMenuCommandsFileE` succeeds
with exactly the pure submenu, logging its three collaborator calls. -/
theorem subMenuCommandsFileE_lift {ε : Type} (p : Env) (te : ε) (s : Settings) (file : AFile)
    (b : String) (repo : Option Repository) (orig : List MenuEntry) (l : List CallE) :
    subMenuCommandsFileE (liftEnvE p te) s file b repo orig l =
      (Except.ok (subMenuCommandsFile p s file b repo orig),
       ((l ++ [CallE.getFileCache file]) ++
          [CallE.getTitleFieldForCommand file ((p.getFileCache file).bind id)]) ++
          [CallE.getRepoFrontmatter repo ((p.getFileCache file).bind id)]) := rfl

/-- Under a never-throwing environment, `resolveSingleRepoE` succeeds with
the pure resolution result. -/
theorem resolveSingleRepoE_lift {ε : Type} (p : Env) (te : ε) (s : Settings)
    (fm : Option Frontmatter) (k : Option Repository) (l : List CallE) :
    resolveSingleRepoE (liftEnvE p te) s fm k l =
      (Except.ok (resolveSingleRepo p s fm k), resolveSingleRepoELog s fm l) := by
  unfold resolveSingleRepoE resolveSingleRepo resolveSingleRepoELog
  by_cases hb : (fm.isNone || !fmHas fm s.shareKey) = true
  · rw [if_pos hb, if_pos hb, if_pos hb]
    cases hfind : s.otherRepo.find? (fun repo => repo.shareAllEnable) with
    | some o => rfl
    | none =>
      by_cases hsa : s.shareAllEnable = true
      · rw [if_pos hsa, if_pos hsa, if_pos hsa]; rfl
      · rw [if_neg hsa, if_neg hsa, if_neg hsa]; rfl
  · rw [if_neg hb, if_neg hb, if_neg hb]
    by_cases hh2 : fmHas fm s.shareKey = true
    · rw [if_pos hh2, if_pos hh2, if_pos hh2]; rfl
    · rw [if_neg hh2, if_neg hh2, if_neg hh2]; rfl



/-- Projection lemmas for `liftEnvE` (all definitional). -/
theorem liftEnvE_isDesktop {ε : Type} (p : Env) (te : ε) :
    (liftEnvE p te).isDesktop = p.isDesktop := rfl

theorem liftEnvE_t {ε : Type} (p : Env) (te : ε) : (liftEnvE p te).t = p.t := rfl

theorem liftEnvE_typeError {ε : Type} (p : Env) (te : ε) : (liftEnvE p te).typeError = te := rfl

theorem liftEnvE_getFileCache {ε : Type} (p : Env) (te : ε) (f : AFile) :
    (liftEnvE p te).getFileCache f = Except.ok (p.getFileCache f) := rfl

theorem liftEnvE_getRepoSharedKey {ε : Type} (p : Env) (te : ε) (s : Settings)
    (fm : Option Frontmatter) :
    (liftEnvE p te).getRepoSharedKey s fm = Except.ok (p.getRepoSharedKey s fm) := rfl

theorem liftEnvE_multipleSharedKey {ε : Type} (p : Env) (te : ε) (fm : Option Frontmatter)
    (s : Settings) :
    (liftEnvE p te).multipleSharedKey fm s = Except.ok (p.multipleSharedKey fm s) := rfl

theorem liftEnvE_isShared {ε : Type} (p : Env) (te : ε) (fm : Option Frontmatter)
    (s : Settings) (f : AFile) (r : Option Repository) :
    (liftEnvE p te).isShared fm s f r = Except.ok (p.isShared fm s f r) := rfl

theorem liftEnvE_getRepoFrontmatter {ε : Type} (p : Env) (te : ε) (s : Settings)
    (r : Option Repository) (fm : Option Frontmatter) :
    (liftEnvE p te).getRepoFrontmatter s r fm = Except.ok (p.getRepoFrontmatter s r fm) := rfl

theorem liftEnvE_getTitle {ε : Type} (p : Env) (te : ε) (f : AFile) (fm : Option Frontmatter) :
    (liftEnvE p te).getTitleFieldForCommand f fm =
      Except.ok (p.getTitleFieldForCommand f fm) := rfl

/-- Under a never-throwing environment, `addMenuFileE` succeeds with the
pure menu, or raises the host TypeError exactly when the pure run crashes. -/
theorem addMenuFileE_lift {ε : Type} (p : Env) (te : ε) (s : Settings) (file : AFile)
    (b : String) (menu : List MenuEntry) (l : List CallE) :
    (addMenuFileE (liftEnvE p te) s file b menu l).1 =
      (match addMenuFile p s file b menu with
        | some m2 => Except.ok m2
        | none => Except.error te) := by
  by_cases hft : file.isTFile = true
  · cases hcache : p.getFileCache file with
    | none =>
      simp [addMenuFileE, addMenuFile, ME.bind, ME.pure, callE, throwE, liftEnvE_isDesktop, liftEnvE_t, liftEnvE_typeError, liftEnvE_getFileCache, liftEnvE_getRepoSharedKey, liftEnvE_multipleSharedKey, liftEnvE_isShared, liftEnvE_getRepoFrontmatter, liftEnvE_getTitle, hft, hcache]
    | some c =>
      by_cases hcond : (p.isShared c s file (p.getRepoSharedKey s c) = true ∧ s.fileMenu = true)
      · by_cases hm : (1 < (p.multipleSharedKey c s).length ∨
            isMultiArray (p.getRepoFrontmatter s (p.getRepoSharedKey s c) c) = true)
        · by_cases hd : p.isDesktop = true
          · simp [addMenuFileE, addMenuFile, ME.bind, ME.pure, callE, throwE, liftEnvE_isDesktop, liftEnvE_t, liftEnvE_typeError, liftEnvE_getFileCache, liftEnvE_getRepoSharedKey, liftEnvE_multipleSharedKey, liftEnvE_isShared, liftEnvE_getRepoFrontmatter, liftEnvE_getTitle, hft, hcache, hcond, hm, hd, subMenuCommandsFileE_lift]
          · simp [addMenuFileE, addMenuFile, ME.bind, ME.pure, callE, throwE, liftEnvE_isDesktop, liftEnvE_t, liftEnvE_typeError, liftEnvE_getFileCache, liftEnvE_getRepoSharedKey, liftEnvE_multipleSharedKey, liftEnvE_isShared, liftEnvE_getRepoFrontmatter, liftEnvE_getTitle, hft, hcache, hcond, hm, hd, subMenuCommandsFileE_lift]
        · simp [addMenuFileE, addMenuFile, ME.bind, ME.pure, callE, throwE, liftEnvE_isDesktop, liftEnvE_t, liftEnvE_typeError, liftEnvE_getFileCache, liftEnvE_getRepoSharedKey, liftEnvE_multipleSharedKey, liftEnvE_isShared, liftEnvE_getRepoFrontmatter, liftEnvE_getTitle, hft, hcache, hcond, hm, resolveSingleRepoE_lift]
      · simp [addMenuFileE, addMenuFile, ME.bind, ME.pure, callE, throwE, liftEnvE_isDesktop, liftEnvE_t, liftEnvE_typeError, liftEnvE_getFileCache, liftEnvE_getRepoSharedKey, liftEnvE_multipleSharedKey, liftEnvE_isShared, liftEnvE_getRepoFrontmatter, liftEnvE_getTitle, hft, hcache, hcond]
  · simp only [Bool.not_eq_true] at hft
    by_cases hcond : (p.isShared none s file (p.getRepoSharedKey s none) = true ∧ s.fileMenu = true)
    · by_cases hm : (1 < (p.multipleSharedKey none s).length ∨
          isMultiArray (p.getRepoFrontmatter s (p.getRepoSharedKey s none) none) = true)
      · by_cases hd : p.isDesktop = true
        · simp [addMenuFileE, addMenuFile, ME.bind, ME.pure, callE, throwE, liftEnvE_isDesktop, liftEnvE_t, liftEnvE_typeError, liftEnvE_getFileCache, liftEnvE_getRepoSharedKey, liftEnvE_multipleSharedKey, liftEnvE_isShared, liftEnvE_getRepoFrontmatter, liftEnvE_getTitle, hft, hcond, hm, hd, subMenuCommandsFileE_lift]
        · simp [addMenuFileE, addMenuFile, ME.bind, ME.pure, callE, throwE, liftEnvE_isDesktop, liftEnvE_t, liftEnvE_typeError, liftEnvE_getFileCache, liftEnvE_getRepoSharedKey, liftEnvE_multipleSharedKey, liftEnvE_isShared, liftEnvE_getRepoFrontmatter, liftEnvE_getTitle, hft, hcond, hm, hd, subMenuCommandsFileE_lift]
      · simp [addMenuFileE, addMenuFile, ME.bind, ME.pure, callE, throwE, liftEnvE_isDesktop, liftEnvE_t, liftEnvE_typeError, liftEnvE_getFileCache, liftEnvE_getRepoSharedKey, liftEnvE_multipleSharedKey, liftEnvE_isShared, liftEnvE_getRepoFrontmatter, liftEnvE_getTitle, hft, hcond, hm, resolveSingleRepoE_lift]
    · simp [addMenuFileE, addMenuFile, ME.bind, ME.pure, callE, throwE, liftEnvE_isDesktop, liftEnvE_t, liftEnvE_typeError, liftEnvE_getFileCache, liftEnvE_getRepoSharedKey, liftEnvE_multipleSharedKey, liftEnvE_isShared, liftEnvE_getRepoFrontmatter, liftEnvE_getTitle, hft, hcond]



/-- `addSubMenuCommandsFolderE` makes no collaborator call and never
throws, for any environment. -/
theorem addSubMenuCommandsFolderE_ok {ε : Type} (env : EnvE ε) (s : Settings)
    (folder : TFolder) (b : String) (menu : List MenuEntry) (l : List CallE) :
    ∃ m2, (addSubMenuCommandsFolderE env s folder b menu) l = (Except.ok m2, l) :=
  ⟨_, rfl⟩

/-- `addMenuFolderE` makes no collaborator call and never throws, for any
environment. -/
theorem addMenuFolderE_ok {ε : Type} (env : EnvE ε) (s : Settings)
    (folder : TFolder) (b : String) (menu : List MenuEntry) (l : List CallE) :
    ∃ m2, (addMenuFolderE env s folder b menu) l = (Except.ok m2, l) := by
  unfold addMenuFolderE
  by_cases h1 : decide (s.otherRepo.length > 0) = true
  · rw [if_pos h1]
    by_cases hd : env.isDesktop = true
    · rw [if_pos hd]
      exact ⟨_, rfl⟩
    · rw [if_neg hd]
      exact ⟨_, rfl⟩
  · rw [if_neg h1]
    exact ⟨_, rfl⟩

/-- Reduction of a bound collaborator call that returns `ok`. -/
theorem bind_callE_ok {ε α β : Type} {r : Except ε α} {a : α} {c : CallE}
    (h : r = Except.ok a) (f : α → ME ε β) (l : List CallE) :
    (ME.bind (callE c r) f) l = f a (l ++ [c]) := by
  unfold ME.bind callE
  rw [h]

/-- The log of a computation followed by a pure constant. -/
theorem bind_const_snd {ε α β : Type} (x : ME ε α) (v : β) (l : List CallE) :
    ((ME.bind x (fun _ => ME.pure v)) l).2 = (x l).2 := by
  unfold ME.bind
  cases x l with
  | mk r l2 => cases r <;> rfl

/-- Claim C7: menu construction never dispatches a share operation: the
four construction operations add no `shareOneNote` or
`shareAllMarkedNotes` call to the log, for every environment (throwing
ones included); a share operation is dispatched only when a constructed
entry click handler fires, and then with the repository recorded for that
entry (the folder default entry resolving its repository via
`getRepoSharedKey` at click time); the chooser entries dispatch no share
by themselves. -/
theorem claimC7 (ε : Type) (env : EnvE ε) (s : Settings) (file : AFile) (folder : TFolder)
    (b fn bn : String) (r r0 : Option Repository) (rep d : Repository)
    (menu : List MenuEntry) (l : List CallE) (sk : Option String)
    (fmr : RepoFM) (fl : List AFile) :
    (((addMenuFileE env s file b menu) l).2.filter isShareCall = l.filter isShareCall) ∧
    (((subMenuCommandsFileE env s file b r menu) l).2.filter isShareCall =
      l.filter isShareCall) ∧
    (((addMenuFolderE env s folder b menu) l).2.filter isShareCall = l.filter isShareCall) ∧
    (((addSubMenuCommandsFolderE env s folder b menu) l).2.filter isShareCall =
      l.filter isShareCall) ∧
    (env.reloadOctokit = Except.ok () →
      ((runClickE env s (Action.shareOneNote b r fn)) l).2 =
        l ++ [CallE.reloadOctokit, CallE.shareOneNote b r fn]) ∧
    (env.reloadOctokit = Except.ok () → env.defaultRepo s = Except.ok d →
      ((runClickE env s (Action.shareOneNoteDefault b fn)) l).2 =
        l ++ [CallE.reloadOctokit, CallE.defaultRepo, CallE.shareOneNote b (some d) fn]) ∧
    (env.getRepoSharedKey s none = Except.ok r0 → env.reloadOctokit = Except.ok () →
      env.getRepoFrontmatter s r0 none = Except.ok fmr →
      env.getSharedFileOfFolder folder r0 = Except.ok fl →
      ((runClickE env s (Action.shareFolderDefault folder b)) l).2 =
        l ++ [CallE.getRepoSharedKey none, CallE.reloadOctokit,
          CallE.getRepoFrontmatter r0 none, CallE.getSharedFileOfFolder folder r0,
          CallE.shareAllMarkedNotes ⟨b, fmr, r0, fl⟩]) ∧
    (env.reloadOctokit = Except.ok () →
      env.getRepoFrontmatter s (some rep) none = Except.ok fmr →
      env.getSharedFileOfFolder folder (some rep) = Except.ok fl →
      ((runClickE env s (Action.shareFolderWith folder b rep)) l).2 =
        l ++ [CallE.reloadOctokit, CallE.getRepoFrontmatter (some rep) none,
          CallE.getSharedFileOfFolder folder (some rep),
          CallE.shareAllMarkedNotes ⟨b, fmr, some rep, fl⟩]) ∧
    (((runClickE env s (Action.chooseRepoFile sk b bn)) l).2.filter isShareCall =
      l.filter isShareCall) ∧
    (((runClickE env s (Action.chooseRepoFolder folder b)) l).2.filter isShareCall =
      l.filter isShareCall) := by
  refine ⟨addMenuFileE_noShare env s file b menu l,
    subMenuCommandsFileE_noShare env s file b r menu l,
    addMenuFolderE_noShare env s folder b menu l,
    addSubMenuCommandsFolderE_noShare env s folder b menu l,
    ?_, ?_, ?_, ?_, ?_, ?_⟩
  · intro h1
    simp only [runClickE, bind_callE_ok h1, bind_const_snd, callE]
    simp
  · intro h1 h2
    simp only [runClickE, bind_callE_ok h1, bind_callE_ok h2, bind_const_snd, callE]
    simp
  · intro h1 h2 h3 h4
    simp only [runClickE, shareFolderRepoE, bind_callE_ok h1, bind_callE_ok h2,
      bind_callE_ok h3, bind_callE_ok h4, bind_const_snd, callE]
    simp
  · intro h1 h2 h3
    simp only [runClickE, shareFolderRepoE, bind_callE_ok h1, bind_callE_ok h2,
      bind_callE_ok h3, bind_const_snd, callE]
    simp
  · simp only [runClickE, bind_const_snd, callE]
    simp [isShareCall]
  · simp only [runClickE, bind_const_snd, callE]
    simp [isShareCall]

/-- Claim C8: no exported operation catches, transforms, or recovers from
a collaborator error: any error produced by `addMenuFileE`,
`subMenuCommandsFileE` or `shareFolderRepoE` is literally one a
collaborator (or the host runtime) raised; the two folder operations make
no fallible call at all during construction; and under a never-throwing
environment `addMenuFileE` returns exactly the pure result (erring only
with the host TypeError when the line 98 assertion fails). -/
theorem claimC8 (ε : Type) (env : EnvE ε) (p : Env) (te : ε) (s : Settings)
    (file : AFile) (folder : TFolder) (b : String) (repo : Option Repository)
    (menu : List MenuEntry) (l : List CallE) (e : ε) :
    (((addMenuFileE env s file b menu) l).1 = Except.error e → env.Throws e) ∧
    (((subMenuCommandsFileE env s file b repo menu) l).1 = Except.error e → env.Throws e) ∧
    (((shareFolderRepoE env s folder b repo) l).1 = Except.error e → env.Throws e) ∧
    (∃ m2, (addMenuFolderE env s folder b menu) l = (Except.ok m2, l)) ∧
    (∃ m2, (addSubMenuCommandsFolderE env s folder b menu) l = (Except.ok m2, l)) ∧
    ((addMenuFileE (liftEnvE p te) s file b menu l).1 =
      (match addMenuFile p s file b menu with
        | some m2 => Except.ok m2
        | none => Except.error te)) :=
  ⟨addMenuFileE_throws env s file b menu l e,
    subMenuCommandsFileE_throws env s file b repo menu l e,
    shareFolderRepoE_throws env s folder b repo l e,
    addMenuFolderE_ok env s folder b menu l,
    addSubMenuCommandsFolderE_ok env s folder b menu l,
    addMenuFileE_lift p te s file b menu l⟩

/-- Witness for claim C8: a failing environment propagates its error. -/
theorem claimC8_witness : EnvE.Throws envEfail (0 : Nat) :=
  (claimC8 Nat envEfail envA 1 settingsA fileA folderA "main" none [] [] 0).1 rfl

/-- Witness for claim C7: a concrete click dispatches the recorded share. -/
theorem claimC7_witness :
    ((runClickE envEok settingsA (Action.shareOneNote "main" (some repoA) "note")) []).2 =
      [CallE.reloadOctokit, CallE.shareOneNote "main" (some repoA) "note"] :=
  (claimC7 Nat envEok settingsA fileA folderA "main" "note" "note" (some repoA) none
    repoA repoA [] [] none (RepoFM.single ⟨"x"⟩) []).2.2.2.2.1 rfl

end FileMenu
